import Mathlib

/-!
Verification of the data pipeline in `src/app.py` (waste-management
dashboard for Bandung).  The pipeline is: `load_data` (read + normalize +
sort), the year-range filter inside the `index` route, `build_summary`,
`build_insights`, and `generate_charts`.

Modelling choices:
* a pandas DataFrame row becomes the structure `Row`; numeric columns are
  rationals (`Rat`), the year column (`tahun`) an `Int`, the month name
  (`bulan`) a `String`;
* the normalized period `tanggal` (a first-of-month timestamp in the code)
  is encoded as the month index `tahun * 12 + month-number`, an `Int` whose
  order coincides with the calendar order of first-of-month dates;
* pandas operations that raise on empty input (`iloc[-1]` raises
  `IndexError`, modelled by the spec taxonomy name `EmptyDataset`;
  `pd.to_datetime` on an unmapped month raises, modelled by
  `UnknownMonth`) become `Except` / `Option` results;
* Python float formatting `{:,.0f}` is round-half-even to an integer with
  thousands separators (`fmt0` below); `str.title()` on a single word is
  `titleCase`.
-/

/-- One row of the simulation dataset after loading (column names as in
the CSV consumed by `app.py`). -/
structure Row where
  tahun : Int
  bulan : String
  tanggal : Int
  jumlah_sampah : Rat
  penanganan_estimasi : Rat
  sisa_sampah : Rat
  akumulasi : Rat
  skn_BAU : Rat
  skn_70 : Rat
  skn_80 : Rat
deriving Repr, DecidableEq

/-- One raw input row when the dataset has no direct `tanggal` column:
only `tahun` and the month name `bulan` are available to reconstruct the
period. -/
structure RawRow where
  tahun : Int
  bulan : String
  jumlah_sampah : Rat
  penanganan_estimasi : Rat
  sisa_sampah : Rat
  akumulasi : Rat
  skn_BAU : Rat
  skn_70 : Rat
  skn_80 : Rat
deriving Repr, DecidableEq

/-- Errors of the loading stage (spec section 7 taxonomy). -/
inductive LoadError where
  | UnknownMonth
  | DataUnavailable
deriving Repr, DecidableEq

/-- The fixed month-name-to-number dictionary `bulan_map` of
`load_data` (`app.py` lines 20-24). -/
def bulan_map : List (String × Nat) :=
  [("JANUARI", 1), ("FEBRUARI", 2), ("MARET", 3), ("APRIL", 4),
   ("MEI", 5), ("JUNI", 6), ("JULI", 7), ("AGUSTUS", 8),
   ("SEPTEMBER", 9), ("OKTOBER", 10), ("NOVEMBER", 11), ("DESEMBER", 12)]

/-- Python's `str.upper()`: every character upper-cased. -/
def str_upper (s : String) : String := String.mk (s.toList.map Char.toUpper)

/-- Reconstruct one row's period from `tahun` and the (case-normalised)
month name, as in `df["bulan"].str.upper().map(bulan_map)` followed by
`pd.to_datetime(...)`: an unmapped month name makes the timestamp
construction fail (`UnknownMonth`). -/
def toRow (r : RawRow) : Except LoadError Row :=
  match bulan_map.lookup (str_upper r.bulan) with
  | none => .error .UnknownMonth
  | some m =>
      .ok { tahun := r.tahun, bulan := r.bulan, tanggal := r.tahun * 12 + (m : Int),
            jumlah_sampah := r.jumlah_sampah,
            penanganan_estimasi := r.penanganan_estimasi,
            sisa_sampah := r.sisa_sampah, akumulasi := r.akumulasi,
            skn_BAU := r.skn_BAU, skn_70 := r.skn_70, skn_80 := r.skn_80 }

/-- Period reconstruction over the whole column; the first unmapped month
name aborts the load. -/
def mapRows : List RawRow → Except LoadError (List Row)
  | [] => .ok []
  | r :: rs =>
      match toRow r, mapRows rs with
      | .ok x, .ok xs => .ok (x :: xs)
      | .error e, _ => .error e
      | .ok _, .error e => .error e

/-- A row with a directly given `tanggal` column value (the
`pd.to_datetime(df["tanggal"])` branch). -/
def rowOf (r : RawRow) (t : Int) : Row :=
  { tahun := r.tahun, bulan := r.bulan, tanggal := t,
    jumlah_sampah := r.jumlah_sampah,
    penanganan_estimasi := r.penanganan_estimasi,
    sisa_sampah := r.sisa_sampah, akumulasi := r.akumulasi,
    skn_BAU := r.skn_BAU, skn_70 := r.skn_70, skn_80 := r.skn_80 }

/-- The raw dataset, as read by `pd.read_csv`: either it has a direct
`tanggal` column or the period must be reconstructed. -/
inductive RawData where
  | withTanggal (rows : List (RawRow × Int))
  | withoutTanggal (rows : List RawRow)

/-- Comparison used by `df.sort_values("tanggal")`. -/
def tanggalLe (a b : Row) : Bool := decide (a.tanggal ≤ b.tanggal)

/-- `load_data` (`app.py` lines 14-29): normalise the period column and
return the rows sorted ascending by `tanggal`. -/
def load_data : RawData → Except LoadError (List Row)
  | .withTanggal rows => .ok ((rows.map (fun p => rowOf p.1 p.2)).mergeSort tanggalLe)
  | .withoutTanggal rows =>
      match mapRows rows with
      | .error e => .error e
      | .ok rs => .ok (rs.mergeSort tanggalLe)

/-- Round half to even at integer precision, the rounding of Python's
`{:,.0f}` format. -/
def roundHalfEven (q : Rat) : Int :=
  let fl : Int := q.floor
  let frac : Rat := q - (fl : Rat)
  if frac < 1/2 then fl
  else if 1/2 < frac then fl + 1
  else if fl % 2 = 0 then fl else fl + 1

/-- Insert a thousands separator after every third digit; the input list
is least-significant digit first. -/
def commaChunks : List Char → List Char
  | c1 :: c2 :: c3 :: c4 :: rest => c1 :: c2 :: c3 :: ',' :: commaChunks (c4 :: rest)
  | l => l

/-- Python's `{:,.0f}` float format: round half to even to an integer,
render with thousands separators. -/
def fmt0 (q : Rat) : String :=
  let n := roundHalfEven q
  let ds := (Nat.toDigits 10 n.natAbs).reverse
  let s := String.mk (commaChunks ds).reverse
  if n < 0 then "-" ++ s else s

/-- Python's `str.title()` restricted to a single word (the month names):
first character upper-cased, the rest lower-cased. -/
def titleCase (s : String) : String :=
  match s.toList with
  | [] => ""
  | c :: cs => String.mk (c.toUpper :: cs.map Char.toLower)

/-- Error taxonomy of the Summarizer (spec section 7): `iloc[-1]` on an
empty frame raises `IndexError`, named `EmptyDataset` by the spec. -/
inductive SummaryError where
  | EmptyDataset
deriving Repr, DecidableEq

/-- The dictionary returned by `build_summary`: each statistic as a raw
value and a formatted display string. -/
structure Summary where
  periode : String
  total_sampah : String
  total_sampah_value : Rat
  rata_penanganan : String
  rata_penanganan_value : Rat
  sisa_akhir : String
  sisa_akhir_value : Rat
  akumulasi_akhir : String
  akumulasi_akhir_value : Rat
deriving Repr, DecidableEq

/-- `build_summary` (`app.py` lines 32-48).  On the empty frame the
computation fails when `df["sisa_sampah"].iloc[-1]` is evaluated
(`IndexError`, spec name `EmptyDataset`); otherwise all five statistics
are produced. -/
def build_summary : List Row → Except SummaryError Summary
  | [] => .error .EmptyDataset
  | x :: xs =>
      let df := x :: xs
      let total : Rat := (df.map (fun r => r.jumlah_sampah)).sum
      let rata_penanganan : Rat :=
        (df.map (fun r => r.penanganan_estimasi)).sum / (df.length : Rat)
      let last := (x :: xs).getLast (List.cons_ne_nil x xs)
      let sisa_akhir := last.sisa_sampah
      let akumulasi_akhir := last.akumulasi
      let tahun_min := xs.foldl (fun m r => min m r.tahun) x.tahun
      let tahun_max := xs.foldl (fun m r => max m r.tahun) x.tahun
      .ok { periode := toString tahun_min ++ " - " ++ toString tahun_max,
            total_sampah := fmt0 total ++ " ton",
            total_sampah_value := total,
            rata_penanganan := fmt0 rata_penanganan ++ " ton/bulan",
            rata_penanganan_value := rata_penanganan,
            sisa_akhir := fmt0 sisa_akhir ++ " ton",
            sisa_akhir_value := sisa_akhir,
            akumulasi_akhir := fmt0 akumulasi_akhir ++ " ton",
            akumulasi_akhir_value := akumulasi_akhir }

/-- The maximum of the column `f` over a non-empty frame
(`df[col].max()`, the value `idxmax` searches for). -/
def seriesMax (f : Row → Rat) : List Row → Option Rat
  | [] => none
  | x :: xs => some (xs.foldl (fun m r => max m (f r)) (f x))

/-- The minimum of the column `f` over a non-empty frame. -/
def seriesMin (f : Row → Rat) : List Row → Option Rat
  | [] => none
  | x :: xs => some (xs.foldl (fun m r => min m (f r)) (f x))

/-- `df.loc[df[col].idxmax()]`: pandas `idxmax` returns the label of the
first occurrence (in the frame's row order) of the maximum, and `loc`
retrieves that row. -/
def maxRowBy (f : Row → Rat) (df : List Row) : Option Row :=
  match seriesMax f df with
  | none => none
  | some m => df.find? (fun r => decide (f r = m))

/-- `df.loc[df[col].idxmin()]`: first occurrence of the minimum. -/
def minRowBy (f : Row → Rat) (df : List Row) : Option Row :=
  match seriesMin f df with
  | none => none
  | some m => df.find? (fun r => decide (f r = m))

/-- `build_insights` (`app.py` lines 51-61): three formatted observations
(peak month, lowest month, scenario delta).  On an empty frame `idxmax`
and `iloc[-1]` raise, hence `none`. -/
def build_insights (df : List Row) : Option (List String) :=
  match maxRowBy (fun r => r.jumlah_sampah) df,
        minRowBy (fun r => r.jumlah_sampah) df, df.getLast? with
  | some highest, some lowest, some lastRow =>
      let best_intervention := lastRow.skn_80
      let bau_end := lastRow.skn_BAU
      let delta := bau_end - best_intervention
      some
        ["Puncak timbulan terjadi pada " ++ titleCase highest.bulan ++ " " ++
           toString highest.tahun ++ " sebesar " ++ fmt0 highest.jumlah_sampah ++ " ton.",
         "Periode terendah adalah " ++ titleCase lowest.bulan ++ " " ++
           toString lowest.tahun ++ " dengan " ++ fmt0 lowest.jumlah_sampah ++ " ton.",
         "Skenario 80% menurunkan akumulasi akhir sebesar " ++ fmt0 delta ++
           " ton dibanding BAU."]
  | _, _, _ => none

/-- One plotly trace: an x axis (periods) and a y axis (values). -/
structure ChartSeries where
  x : List Int
  y : List Rat
deriving Repr, DecidableEq

/-- `generate_charts` (`app.py` lines 68-130): the trend figure
(`tanggal` vs `jumlah_sampah`), the accumulation figure (`tanggal` vs
`akumulasi`) and the scenario figure with its three traces (`skn_BAU`,
`skn_70`, `skn_80`), each a plain column projection of the view. -/
def generate_charts (df : List Row) :
    ChartSeries × ChartSeries × (ChartSeries × ChartSeries × ChartSeries) :=
  (⟨df.map (fun r => r.tanggal), df.map (fun r => r.jumlah_sampah)⟩,
   ⟨df.map (fun r => r.tanggal), df.map (fun r => r.akumulasi)⟩,
   (⟨df.map (fun r => r.tanggal), df.map (fun r => r.skn_BAU)⟩,
    ⟨df.map (fun r => r.tanggal), df.map (fun r => r.skn_70)⟩,
    ⟨df.map (fun r => r.tanggal), df.map (fun r => r.skn_80)⟩))

/-- Python `int(s)` on a string of decimal digits. -/
def str_to_int (s : String) : Int :=
  Int.ofNat (s.toList.foldl (fun n c => 10 * n + (c.toNat - 48)) 0)

/-- Python `str.isdigit`: non-empty and all characters decimal digits. -/
def isdigit (s : String) : Bool := !s.isEmpty && s.toList.all Char.isDigit

/-- The guard `if year_from and year_from.isdigit(): ... int(year_from)`
(`app.py` lines 141-144): an absent parameter, an empty string or a
non-digit string contributes no bound. -/
def parseBound : Option String → Option Int
  | none => none
  | some s => if !s.isEmpty && isdigit s then some (str_to_int s) else none

/-- The two sequential restrictions `df_view[df_view["tahun"] >= lo]` and
`df_view[df_view["tahun"] <= hi]`, each applied only when its bound
parses (`app.py` lines 140-144). -/
def applyBounds (df : List Row) (year_from year_to : Option String) : List Row :=
  let v1 :=
    match parseBound year_from with
    | some lo => df.filter (fun r => decide (lo ≤ r.tahun))
    | none => df
  match parseBound year_to with
  | some hi => v1.filter (fun r => decide (r.tahun ≤ hi))
  | none => v1

/-- The predicate "the row's year lies within the (optional) bounds". -/
def boundOk (lo hi : Option Int) (r : Row) : Bool :=
  (match lo with | some l => decide (l ≤ r.tahun) | none => true) &&
  (match hi with | some h => decide (r.tahun ≤ h) | none => true)

/-- The filter step of the `index` route (`app.py` lines 140-149): apply
the bounds; if the result is empty fall back to the full dataset and
reset both displayed bounds to the empty string ("no filter").  Returns
the view together with the two displayed bound strings (the template
receives `year_from or ""`). -/
def range_filter (df : List Row) (year_from year_to : Option String) :
    List Row × String × String :=
  let df_view := applyBounds df year_from year_to
  if df_view.isEmpty then (df, "", "")
  else (df_view, year_from.getD "", year_to.getD "")

/-! ### Helper lemmas about the column folds -/

theorem le_foldl_max {α : Type} [LinearOrder α] (g : Row → α) :
    ∀ (xs : List Row) (a : α), a ≤ xs.foldl (fun m r => max m (g r)) a
  | [], _ => le_refl _
  | x :: xs, a =>
      le_trans (le_max_left a (g x)) (le_foldl_max g xs (max a (g x)))

theorem foldl_max_ge_of_mem {α : Type} [LinearOrder α] (g : Row → α) :
    ∀ (xs : List Row) (a : α) (r : Row), r ∈ xs →
      g r ≤ xs.foldl (fun m r => max m (g r)) a := by
  intro xs
  induction xs with
  | nil => intro a r hr; cases hr
  | cons x xs ih =>
      intro a r hr
      rcases List.mem_cons.mp hr with h | h
      · subst h
        exact le_trans (le_max_right a (g r)) (le_foldl_max g xs (max a (g r)))
      · exact ih (max a (g x)) r h

theorem foldl_max_attained {α : Type} [LinearOrder α] (g : Row → α) :
    ∀ (xs : List Row) (a : α),
      xs.foldl (fun m r => max m (g r)) a = a ∨
      ∃ r ∈ xs, xs.foldl (fun m r => max m (g r)) a = g r := by
  intro xs
  induction xs with
  | nil => intro a; exact Or.inl rfl
  | cons x xs ih =>
      intro a
      rcases ih (max a (g x)) with h | ⟨r, hr, h⟩
      · rcases max_choice a (g x) with hm | hm
        · exact Or.inl (by simpa [hm] using h)
        · exact Or.inr ⟨x, List.mem_cons_self x xs, by simpa [hm] using h⟩
      · exact Or.inr ⟨r, List.mem_cons_of_mem x hr, h⟩

theorem foldl_min_le {α : Type} [LinearOrder α] (g : Row → α) :
    ∀ (xs : List Row) (a : α), xs.foldl (fun m r => min m (g r)) a ≤ a
  | [], _ => le_refl _
  | x :: xs, a =>
      le_trans (foldl_min_le g xs (min a (g x))) (min_le_left a (g x))

theorem foldl_min_le_of_mem {α : Type} [LinearOrder α] (g : Row → α) :
    ∀ (xs : List Row) (a : α) (r : Row), r ∈ xs →
      xs.foldl (fun m r => min m (g r)) a ≤ g r := by
  intro xs
  induction xs with
  | nil => intro a r hr; cases hr
  | cons x xs ih =>
      intro a r hr
      rcases List.mem_cons.mp hr with h | h
      · subst h
        exact le_trans (foldl_min_le g xs (min a (g r))) (min_le_right a (g r))
      · exact ih (min a (g x)) r h

theorem foldl_min_attained {α : Type} [LinearOrder α] (g : Row → α) :
    ∀ (xs : List Row) (a : α),
      xs.foldl (fun m r => min m (g r)) a = a ∨
      ∃ r ∈ xs, xs.foldl (fun m r => min m (g r)) a = g r := by
  intro xs
  induction xs with
  | nil => intro a; exact Or.inl rfl
  | cons x xs ih =>
      intro a
      rcases ih (min a (g x)) with h | ⟨r, hr, h⟩
      · rcases min_choice a (g x) with hm | hm
        · exact Or.inl (by simpa [hm] using h)
        · exact Or.inr ⟨x, List.mem_cons_self x xs, by simpa [hm] using h⟩
      · exact Or.inr ⟨r, List.mem_cons_of_mem x hr, h⟩

theorem seriesMax_spec (f : Row → Rat) (df : List Row) (m : Rat)
    (h : seriesMax f df = some m) :
    (∀ r ∈ df, f r ≤ m) ∧ ∃ r ∈ df, f r = m := by
  cases df with
  | nil => cases h
  | cons x xs =>
      have hm : xs.foldl (fun acc r => max acc (f r)) (f x) = m := by
        simpa [seriesMax] using h
      constructor
      · intro r hr
        rcases List.mem_cons.mp hr with h' | h'
        · subst h'; rw [← hm]; exact le_foldl_max f xs (f r)
        · rw [← hm]; exact foldl_max_ge_of_mem f xs (f x) r h'
      · rcases foldl_max_attained f xs (f x) with h' | ⟨r, hr, h'⟩
        · exact ⟨x, List.mem_cons_self x xs, by rw [← hm, h']⟩
        · exact ⟨r, List.mem_cons_of_mem x hr, by rw [← hm, h']⟩

theorem seriesMin_spec (f : Row → Rat) (df : List Row) (m : Rat)
    (h : seriesMin f df = some m) :
    (∀ r ∈ df, m ≤ f r) ∧ ∃ r ∈ df, f r = m := by
  cases df with
  | nil => cases h
  | cons x xs =>
      have hm : xs.foldl (fun acc r => min acc (f r)) (f x) = m := by
        simpa [seriesMin] using h
      constructor
      · intro r hr
        rcases List.mem_cons.mp hr with h' | h'
        · subst h'; rw [← hm]; exact foldl_min_le f xs (f r)
        · rw [← hm]; exact foldl_min_le_of_mem f xs (f x) r h'
      · rcases foldl_min_attained f xs (f x) with h' | ⟨r, hr, h'⟩
        · exact ⟨x, List.mem_cons_self x xs, by rw [← hm, h']⟩
        · exact ⟨r, List.mem_cons_of_mem x hr, by rw [← hm, h']⟩

theorem maxRowBy_spec (f : Row → Rat) (df : List Row) (hne : df ≠ []) :
    ∃ hi as bs, maxRowBy f df = some hi ∧ df = as ++ hi :: bs ∧
      (∀ r ∈ df, f r ≤ f hi) ∧ ∀ a ∈ as, f a ≠ f hi := by
  obtain ⟨x, xs, rfl⟩ := List.exists_cons_of_ne_nil hne
  obtain ⟨m, hm⟩ : ∃ m, seriesMax f (x :: xs) = some m := ⟨_, rfl⟩
  obtain ⟨hub, r0, hr0, hr0m⟩ := seriesMax_spec f (x :: xs) m hm
  obtain ⟨hi, hfind⟩ :
      ∃ hi, (x :: xs).find? (fun r => decide (f r = m)) = some hi := by
    cases hf : (x :: xs).find? (fun r => decide (f r = m)) with
    | none =>
        exact absurd (by simpa using hr0m)
          (by simpa using List.find?_eq_none.mp hf r0 hr0)
    | some hi => exact ⟨hi, rfl⟩
  obtain ⟨hp, as, bs, hsplit, hfail⟩ := List.find?_eq_some.mp hfind
  have hhim : f hi = m := by simpa using hp
  refine ⟨hi, as, bs, ?_, hsplit, ?_, ?_⟩
  · simp [maxRowBy, hm, hfind]
  · intro r hr; rw [hhim]; exact hub r hr
  · intro a ha
    have := hfail a ha
    simp only [Bool.not_eq_eq_eq_not, Bool.not_true, decide_eq_false_iff_not] at this
    rw [hhim]; exact this

theorem minRowBy_spec (f : Row → Rat) (df : List Row) (hne : df ≠ []) :
    ∃ lo as bs, minRowBy f df = some lo ∧ df = as ++ lo :: bs ∧
      (∀ r ∈ df, f lo ≤ f r) ∧ ∀ a ∈ as, f a ≠ f lo := by
  obtain ⟨x, xs, rfl⟩ := List.exists_cons_of_ne_nil hne
  obtain ⟨m, hm⟩ : ∃ m, seriesMin f (x :: xs) = some m := ⟨_, rfl⟩
  obtain ⟨hlb, r0, hr0, hr0m⟩ := seriesMin_spec f (x :: xs) m hm
  obtain ⟨lo, hfind⟩ :
      ∃ lo, (x :: xs).find? (fun r => decide (f r = m)) = some lo := by
    cases hf : (x :: xs).find? (fun r => decide (f r = m)) with
    | none =>
        exact absurd (by simpa using hr0m)
          (by simpa using List.find?_eq_none.mp hf r0 hr0)
    | some lo => exact ⟨lo, rfl⟩
  obtain ⟨hp, as, bs, hsplit, hfail⟩ := List.find?_eq_some.mp hfind
  have hlom : f lo = m := by simpa using hp
  refine ⟨lo, as, bs, ?_, hsplit, ?_, ?_⟩
  · simp [minRowBy, hm, hfind]
  · intro r hr; rw [hlom]; exact hlb r hr
  · intro a ha
    have := hfail a ha
    simp only [Bool.not_eq_eq_eq_not, Bool.not_true, decide_eq_false_iff_not] at this
    rw [hlom]; exact this

theorem getLast_max_of_sorted (df : List Row) (lastRow : Row)
    (hs : df.Pairwise fun a b => a.tanggal < b.tanggal)
    (hl : df.getLast? = some lastRow) :
    ∀ x ∈ df, x.tanggal ≤ lastRow.tanggal := by
  obtain ⟨ys, rfl⟩ := List.getLast?_eq_some_iff.mp hl
  intro x hx
  rcases List.mem_append.mp hx with h | h
  · exact le_of_lt ((List.pairwise_append.mp hs).2.2 x h lastRow (by simp))
  · simp only [List.mem_singleton] at h
    subst h; exact le_refl _

theorem boundOk_none_none (r : Row) : boundOk none none r = true := rfl

theorem boundOk_none_some (hi : Int) (r : Row) :
    boundOk none (some hi) r = decide (r.tahun ≤ hi) := by simp [boundOk]

theorem boundOk_some_none (lo : Int) (r : Row) :
    boundOk (some lo) none r = decide (lo ≤ r.tahun) := by simp [boundOk]

theorem boundOk_some_some (lo hi : Int) (r : Row) :
    boundOk (some lo) (some hi) r =
      (decide (lo ≤ r.tahun) && decide (r.tahun ≤ hi)) := rfl

theorem build_insights_eq (df : List Row) (hi lo lastRow : Row)
    (hmax : maxRowBy (fun r => r.jumlah_sampah) df = some hi)
    (hmin : minRowBy (fun r => r.jumlah_sampah) df = some lo)
    (hlast : df.getLast? = some lastRow) :
    build_insights df = some
      ["Puncak timbulan terjadi pada " ++ titleCase hi.bulan ++ " " ++
         toString hi.tahun ++ " sebesar " ++ fmt0 hi.jumlah_sampah ++ " ton.",
       "Periode terendah adalah " ++ titleCase lo.bulan ++ " " ++
         toString lo.tahun ++ " dengan " ++ fmt0 lo.jumlah_sampah ++ " ton.",
       "Skenario 80% menurunkan akumulasi akhir sebesar " ++
         fmt0 (lastRow.skn_BAU - lastRow.skn_80) ++ " ton dibanding BAU."] := by
  simp [build_insights, hmax, hmin, hlast]

/-! ### The claims -/

/-- C1: for every dataset and every pair of optional year bounds, if
applying the bounds yields an empty row set, the filter step of the
`index` route returns a view equal to the original unfiltered dataset and
resets both displayed bounds to the empty string ("no filter"); being a
total function, this recovery path raises no error. -/
theorem rangeFilter_empty_fallback (df : List Row)
    (year_from year_to : Option String)
    (hempty : applyBounds df year_from year_to = []) :
    range_filter df year_from year_to = (df, "", "") := by
  simp [range_filter, hempty]

/-- C5: when the filtered result is non-empty, the filter retains exactly
the rows whose year lies within the parsed bounds, each bound applied
independently (only the lower, only the upper, both, or neither), and an
absent or non-digit bound string contributes no bound at all. -/
theorem applyBounds_exact (df : List Row) (year_from year_to : Option String)
    (hne : applyBounds df year_from year_to ≠ []) :
    applyBounds df year_from year_to =
      df.filter (boundOk (parseBound year_from) (parseBound year_to)) ∧
    parseBound none = none ∧
    ∀ s : String, isdigit s = false → parseBound (some s) = none := by
  refine ⟨?_, rfl, ?_⟩
  · rcases hf : parseBound year_from with _ | lo <;>
      rcases ht : parseBound year_to with _ | hi <;>
      simp only [applyBounds, hf, ht, List.filter_filter]
    · rw [List.filter_congr fun r _ => boundOk_none_none r, List.filter_true]
    · exact (List.filter_congr fun r _ => boundOk_none_some hi r).symm
    · exact (List.filter_congr fun r _ => boundOk_some_none lo r).symm
    · rw [List.filter_congr fun r _ => boundOk_some_some lo hi r]
      exact List.filter_congr fun r _ => Bool.and_comm _ _
  · intro s hs
    simp [parseBound, hs]

/-- C9: `build_summary` fails, with `EmptyDataset` (the `IndexError` of
`iloc[-1]`), exactly on the empty view: it raises on every empty view and
returns a summary on every non-empty view. -/
theorem buildSummary_empty_guard (df : List Row) :
    (build_summary df = .error .EmptyDataset ↔ df = []) ∧
    (df ≠ [] → ∃ s, build_summary df = .ok s) := by
  cases df with
  | nil => exact ⟨by simp [build_summary], by simp⟩
  | cons x xs =>
      refine ⟨⟨fun h => ?_, fun h => by cases h⟩, fun _ => ⟨_, rfl⟩⟩
      simp [build_summary] at h

/-- C7: `generate_charts` is a pure projection: every trace of the three
figures (trend, accumulation, three-scenario comparison) has the same
length as the input view and shares its period axis in chronological
order, and the empty view yields empty traces rather than an error. -/
theorem generateCharts_projection (df : List Row) :
    ((generate_charts df).1.x = df.map (fun r => r.tanggal)) ∧
    ((generate_charts df).2.1.x = (generate_charts df).1.x) ∧
    ((generate_charts df).2.2.1.x = (generate_charts df).1.x) ∧
    ((generate_charts df).2.2.2.1.x = (generate_charts df).1.x) ∧
    ((generate_charts df).2.2.2.2.x = (generate_charts df).1.x) ∧
    ((generate_charts df).1.x.length = df.length) ∧
    ((generate_charts df).1.y.length = df.length) ∧
    ((generate_charts df).2.1.y.length = df.length) ∧
    ((generate_charts df).2.2.1.y.length = df.length) ∧
    ((generate_charts df).2.2.2.1.y.length = df.length) ∧
    ((generate_charts df).2.2.2.2.y.length = df.length) ∧
    (df = [] → generate_charts df =
      (⟨[], []⟩, ⟨[], []⟩, ⟨[], []⟩, ⟨[], []⟩, ⟨[], []⟩)) := by
  refine ⟨rfl, rfl, rfl, rfl, rfl, ?_, ?_, ?_, ?_, ?_, ?_,
    fun h => by subst h; rfl⟩ <;> simp [generate_charts]

/-- C10: on every non-empty view `build_insights` returns exactly three
strings, never fewer; the length of the insight list does not depend on
the view's contents. -/
theorem buildInsights_length_three (df : List Row) (hne : df ≠ []) :
    ∃ l, build_insights df = some l ∧ l.length = 3 := by
  obtain ⟨hi, as1, bs1, hmax, -, -, -⟩ :=
    maxRowBy_spec (fun r => r.jumlah_sampah) df hne
  obtain ⟨lo, as2, bs2, hmin, -, -, -⟩ :=
    minRowBy_spec (fun r => r.jumlah_sampah) df hne
  obtain ⟨lastRow, hlast⟩ :=
    Option.isSome_iff_exists.mp (List.getLast?_isSome.mpr hne)
  exact ⟨_, build_insights_eq df hi lo lastRow hmax hmin hlast, rfl⟩

/-- C3: for every valid input dataset satisfying the uniqueness invariant
on the period, the row sequence returned by `load_data` is sorted
ascending, strictly increasing, by the `tanggal` value. -/
theorem loadData_sorted (d : RawData) (out : List Row)
    (hok : load_data d = .ok out)
    (huniq : out.Pairwise fun a b => a.tanggal ≠ b.tanggal) :
    out.Pairwise fun a b => a.tanggal < b.tanggal := by
  have htrans : ∀ a b c : Row,
      tanggalLe a b = true → tanggalLe b c = true → tanggalLe a c = true := by
    intro a b c hab hbc
    simp only [tanggalLe, decide_eq_true_eq] at hab hbc ⊢
    exact le_trans hab hbc
  have htotal : ∀ a b : Row, (tanggalLe a b || tanggalLe b a) = true := by
    intro a b
    simp only [tanggalLe, Bool.or_eq_true, decide_eq_true_eq]
    exact le_total _ _
  have key : ∀ l : List Row, out = l.mergeSort tanggalLe →
      out.Pairwise fun a b => a.tanggal < b.tanggal := by
    intro l hl
    have hs := List.sorted_mergeSort htrans htotal l
    rw [← hl] at hs
    have hle : out.Pairwise fun a b => a.tanggal ≤ b.tanggal :=
      hs.imp (by intro a b h; simpa [tanggalLe] using h)
    exact (hle.and huniq).imp fun h => lt_of_le_of_ne h.1 h.2
  cases d with
  | withTanggal rows =>
      simp only [load_data, Except.ok.injEq] at hok
      exact key _ hok.symm
  | withoutTanggal rows =>
      cases hm : mapRows rows with
      | error e =>
          simp only [load_data, hm] at hok
          exact Except.noConfusion hok
      | ok rs =>
          simp only [load_data, hm, Except.ok.injEq] at hok
          exact key _ hok.symm

/-- C2: on every non-empty (chronologically sorted) view the Summarizer
returns the sum of `jumlah_sampah` over exactly the view's rows, the mean
of `penanganan_estimasi`, the `sisa_sampah` and `akumulasi` values of the
chronologically last row, and a period label "min year - max year"
computed over that view. -/
theorem buildSummary_stats (df : List Row) (hne : df ≠ [])
    (hsorted : df.Pairwise fun a b => a.tanggal < b.tanggal) :
    ∃ s lastRow, build_summary df = .ok s ∧
      df.getLast? = some lastRow ∧
      (∀ r ∈ df, r.tanggal ≤ lastRow.tanggal) ∧
      s.total_sampah_value = (df.map (fun r => r.jumlah_sampah)).sum ∧
      s.rata_penanganan_value =
        (df.map (fun r => r.penanganan_estimasi)).sum / (df.length : Rat) ∧
      s.sisa_akhir_value = lastRow.sisa_sampah ∧
      s.akumulasi_akhir_value = lastRow.akumulasi ∧
      ∃ ymin ymax, (∃ r ∈ df, r.tahun = ymin) ∧ (∃ r ∈ df, r.tahun = ymax) ∧
        (∀ r ∈ df, ymin ≤ r.tahun ∧ r.tahun ≤ ymax) ∧
        s.periode = toString ymin ++ " - " ++ toString ymax := by
  obtain ⟨x, xs, rfl⟩ := List.exists_cons_of_ne_nil hne
  have hlast : (x :: xs).getLast? = some ((x :: xs).getLast (List.cons_ne_nil x xs)) :=
    List.getLast?_eq_getLast _ _
  refine ⟨_, (x :: xs).getLast (List.cons_ne_nil x xs), rfl, hlast,
    getLast_max_of_sorted _ _ hsorted hlast, rfl, rfl, rfl, rfl,
    xs.foldl (fun m r => min m r.tahun) x.tahun,
    xs.foldl (fun m r => max m r.tahun) x.tahun, ?_, ?_, ?_, rfl⟩
  · rcases foldl_min_attained (fun r => r.tahun) xs x.tahun with h | ⟨r, hr, h⟩
    · exact ⟨x, List.mem_cons_self x xs, h.symm⟩
    · exact ⟨r, List.mem_cons_of_mem x hr, h.symm⟩
  · rcases foldl_max_attained (fun r => r.tahun) xs x.tahun with h | ⟨r, hr, h⟩
    · exact ⟨x, List.mem_cons_self x xs, h.symm⟩
    · exact ⟨r, List.mem_cons_of_mem x hr, h.symm⟩
  · intro r hr
    rcases List.mem_cons.mp hr with h | h
    · subst h
      exact ⟨foldl_min_le (fun r => r.tahun) xs r.tahun,
             le_foldl_max (fun r => r.tahun) xs r.tahun⟩
    · exact ⟨foldl_min_le_of_mem (fun r => r.tahun) xs x.tahun r h,
             foldl_max_ge_of_mem (fun r => r.tahun) xs x.tahun r h⟩

theorem first_occurrence_min_tanggal (df as bs : List Row) (c : Row)
    (v : Row → Rat)
    (hsorted : df.Pairwise fun a b => a.tanggal < b.tanggal)
    (hsplit : df = as ++ c :: bs)
    (hfail : ∀ a ∈ as, v a ≠ v c) :
    ∀ r ∈ df, v r = v c → c.tanggal ≤ r.tanggal := by
  subst hsplit
  intro r hr hrv
  rcases List.mem_append.mp hr with h | h
  · exact absurd hrv (hfail r h)
  · rcases List.mem_cons.mp h with h | h
    · subst h; exact le_refl _
    · have hp := (List.pairwise_append.mp hsorted).2.1
      exact le_of_lt ((List.pairwise_cons.mp hp).1 r h)

/-- C4: for every non-empty (chronologically sorted) view, the peak row
selected by `build_insights` has no other row with strictly greater
`jumlah_sampah`, the lowest row none strictly lesser, and when several
rows tie for the maximum (resp. minimum) the first occurrence in
chronological order is selected. -/
theorem buildInsights_peak_lowest (df : List Row) (hne : df ≠ [])
    (hsorted : df.Pairwise fun a b => a.tanggal < b.tanggal) :
    ∃ hi lo,
      maxRowBy (fun r => r.jumlah_sampah) df = some hi ∧
      minRowBy (fun r => r.jumlah_sampah) df = some lo ∧
      hi ∈ df ∧ lo ∈ df ∧
      (∀ r ∈ df, r.jumlah_sampah ≤ hi.jumlah_sampah) ∧
      (∀ r ∈ df, lo.jumlah_sampah ≤ r.jumlah_sampah) ∧
      (∀ r ∈ df, r.jumlah_sampah = hi.jumlah_sampah → hi.tanggal ≤ r.tanggal) ∧
      (∀ r ∈ df, r.jumlah_sampah = lo.jumlah_sampah → lo.tanggal ≤ r.tanggal) ∧
      ∃ s3, build_insights df = some
        ["Puncak timbulan terjadi pada " ++ titleCase hi.bulan ++ " " ++
           toString hi.tahun ++ " sebesar " ++ fmt0 hi.jumlah_sampah ++ " ton.",
         "Periode terendah adalah " ++ titleCase lo.bulan ++ " " ++
           toString lo.tahun ++ " dengan " ++ fmt0 lo.jumlah_sampah ++ " ton.",
         s3] := by
  obtain ⟨hi, as1, bs1, hmax, hsplit1, hub, hfail1⟩ :=
    maxRowBy_spec (fun r => r.jumlah_sampah) df hne
  obtain ⟨lo, as2, bs2, hmin, hsplit2, hlb, hfail2⟩ :=
    minRowBy_spec (fun r => r.jumlah_sampah) df hne
  obtain ⟨lastRow, hlast⟩ :=
    Option.isSome_iff_exists.mp (List.getLast?_isSome.mpr hne)
  refine ⟨hi, lo, hmax, hmin, ?_, ?_, hub, hlb,
    first_occurrence_min_tanggal df as1 bs1 hi _ hsorted hsplit1 hfail1,
    first_occurrence_min_tanggal df as2 bs2 lo _ hsorted hsplit2 hfail2,
    _, build_insights_eq df hi lo lastRow hmax hmin hlast⟩
  · rw [hsplit1]; exact List.mem_append.mpr (Or.inr (List.mem_cons_self hi bs1))
  · rw [hsplit2]; exact List.mem_append.mpr (Or.inr (List.mem_cons_self lo bs2))

/-- C6: on every non-empty (chronologically sorted) view the third
insight's delta is `skn_BAU` minus `skn_80`, both taken from the
chronologically last row, rendered with the shared numeric format. -/
theorem buildInsights_delta (df : List Row) (hne : df ≠ [])
    (hsorted : df.Pairwise fun a b => a.tanggal < b.tanggal) :
    ∃ lastRow s1 s2, df.getLast? = some lastRow ∧
      (∀ r ∈ df, r.tanggal ≤ lastRow.tanggal) ∧
      build_insights df = some [s1, s2,
        "Skenario 80% menurunkan akumulasi akhir sebesar " ++
          fmt0 (lastRow.skn_BAU - lastRow.skn_80) ++ " ton dibanding BAU."] := by
  obtain ⟨hi, as1, bs1, hmax, -, -, -⟩ :=
    maxRowBy_spec (fun r => r.jumlah_sampah) df hne
  obtain ⟨lo, as2, bs2, hmin, -, -, -⟩ :=
    minRowBy_spec (fun r => r.jumlah_sampah) df hne
  obtain ⟨lastRow, hlast⟩ :=
    Option.isSome_iff_exists.mp (List.getLast?_isSome.mpr hne)
  exact ⟨lastRow, _, _, hlast, getLast_max_of_sorted _ _ hsorted hlast,
    build_insights_eq df hi lo lastRow hmax hmin hlast⟩

theorem mapRows_error_of_bad : ∀ rows : List RawRow,
    (∃ r ∈ rows, bulan_map.lookup (str_upper r.bulan) = none) →
    mapRows rows = .error .UnknownMonth := by
  intro rows
  induction rows with
  | nil => rintro ⟨r, hr, -⟩; cases hr
  | cons r rs ih =>
      rintro ⟨r0, hr0, hbad⟩
      rcases List.mem_cons.mp hr0 with h | h
      · subst h
        simp [mapRows, toRow, hbad]
      · have hrs := ih ⟨r0, h, hbad⟩
        cases hlk : bulan_map.lookup (str_upper r.bulan) with
        | none => simp [mapRows, toRow, hlk]
        | some m => simp [mapRows, toRow, hlk, hrs]

theorem mapRows_ok_of_good : ∀ rows : List RawRow,
    (∀ r ∈ rows, (bulan_map.lookup (str_upper r.bulan)).isSome) →
    ∃ ys, mapRows rows = .ok ys ∧
      ∀ y ∈ ys, ∃ m, bulan_map.lookup (str_upper y.bulan) = some m ∧
        y.tanggal = y.tahun * 12 + (m : Int) := by
  intro rows
  induction rows with
  | nil => intro _; exact ⟨[], rfl, by simp⟩
  | cons r rs ih =>
      intro hgood
      obtain ⟨m, hm⟩ :=
        Option.isSome_iff_exists.mp (hgood r (List.mem_cons_self r rs))
      obtain ⟨ys, hys, hprop⟩ := ih fun a ha => hgood a (List.mem_cons_of_mem r ha)
      refine ⟨{ tahun := r.tahun, bulan := r.bulan,
                tanggal := r.tahun * 12 + (m : Int),
                jumlah_sampah := r.jumlah_sampah,
                penanganan_estimasi := r.penanganan_estimasi,
                sisa_sampah := r.sisa_sampah, akumulasi := r.akumulasi,
                skn_BAU := r.skn_BAU, skn_70 := r.skn_70,
                skn_80 := r.skn_80 } :: ys, ?_, ?_⟩
      · simp [mapRows, toRow, hm, hys]
      · intro y hy
        rcases List.mem_cons.mp hy with h | h
        · subst h; exact ⟨m, hm, rfl⟩
        · exact hprop y h

/-- C8: when the input lacks a direct period column, the loader
reconstructs the period from the year and month-name fields via the fixed
`bulan_map`, matched on the upper-cased month name (case-insensitively),
and fails with `UnknownMonth` for every input containing a month name not
in the mapping. -/
theorem loadData_unknown_month (rows : List RawRow) :
    ((∃ r ∈ rows, bulan_map.lookup (str_upper r.bulan) = none) →
      load_data (.withoutTanggal rows) = .error .UnknownMonth) ∧
    ((∀ r ∈ rows, (bulan_map.lookup (str_upper r.bulan)).isSome) →
      ∃ out, load_data (.withoutTanggal rows) = .ok out ∧
        ∀ y ∈ out, ∃ m, bulan_map.lookup (str_upper y.bulan) = some m ∧
          y.tanggal = y.tahun * 12 + (m : Int)) := by
  constructor
  · intro hbad
    simp [load_data, mapRows_error_of_bad rows hbad]
  · intro hgood
    obtain ⟨ys, hys, hprop⟩ := mapRows_ok_of_good rows hgood
    refine ⟨ys.mergeSort tanggalLe, by simp [load_data, hys], ?_⟩
    intro y hy
    exact hprop y ((List.mergeSort_perm ys tanggalLe).mem_iff.mp hy)

/-! ### Concrete witnesses -/

theorem mergeSort_pair (le : Row → Row → Bool) (a b : Row) :
    [a, b].mergeSort le = if le a b then [a, b] else [b, a] := by
  rw [List.mergeSort]
  simp [List.splitInTwo, List.splitAt, List.splitAt.go, List.merge]

theorem roundHalfEven_intCast (n : Int) : roundHalfEven (n : Rat) = n := by
  have h1 : ((n : Rat)).floor = n := by
    rw [Rat.floor_def']
    simp
  simp only [roundHalfEven]
  rw [h1]
  norm_num

theorem fmt0_intCast (n : Int) (h : 0 ≤ n) :
    fmt0 (n : Rat) =
      String.mk (commaChunks (Nat.toDigits 10 n.natAbs).reverse).reverse := by
  simp only [fmt0]
  rw [roundHalfEven_intCast]
  simp [not_lt.mpr h]

/-- Sample view rows following the spec scenarios: years 2020-2022 with
`jumlah_sampah` 100, 150, 90 and final scenario values 500 / 350. -/
def row2020 : Row :=
  { tahun := 2020, bulan := "JANUARI", tanggal := 2020 * 12 + 1,
    jumlah_sampah := 100, penanganan_estimasi := 80, sisa_sampah := 20,
    akumulasi := 20, skn_BAU := 120, skn_70 := 100, skn_80 := 90 }

def row2021 : Row :=
  { tahun := 2021, bulan := "FEBRUARI", tanggal := 2021 * 12 + 2,
    jumlah_sampah := 150, penanganan_estimasi := 110, sisa_sampah := 40,
    akumulasi := 60, skn_BAU := 260, skn_70 := 210, skn_80 := 180 }

def row2022 : Row :=
  { tahun := 2022, bulan := "MARET", tanggal := 2022 * 12 + 3,
    jumlah_sampah := 90, penanganan_estimasi := 70, sisa_sampah := 20,
    akumulasi := 80, skn_BAU := 500, skn_70 := 420, skn_80 := 350 }

def sampleDf : List Row := [row2020, row2021, row2022]

/-- Sample raw rows with mixed-case month names, listed out of
chronological order. -/
def raw2020 : RawRow :=
  { tahun := 2020, bulan := "Januari", jumlah_sampah := 100,
    penanganan_estimasi := 80, sisa_sampah := 20, akumulasi := 20,
    skn_BAU := 120, skn_70 := 100, skn_80 := 90 }

def raw2021 : RawRow :=
  { tahun := 2021, bulan := "Februari", jumlah_sampah := 150,
    penanganan_estimasi := 110, sisa_sampah := 40, akumulasi := 60,
    skn_BAU := 260, skn_70 := 210, skn_80 := 180 }

def sampleRaw : List RawRow := [raw2021, raw2020]

def loaded2020 : Row :=
  { tahun := 2020, bulan := "Januari", tanggal := 2020 * 12 + 1,
    jumlah_sampah := 100, penanganan_estimasi := 80, sisa_sampah := 20,
    akumulasi := 20, skn_BAU := 120, skn_70 := 100, skn_80 := 90 }

def loaded2021 : Row :=
  { tahun := 2021, bulan := "Februari", tanggal := 2021 * 12 + 2,
    jumlah_sampah := 150, penanganan_estimasi := 110, sisa_sampah := 40,
    akumulasi := 60, skn_BAU := 260, skn_70 := 210, skn_80 := 180 }

def loadedSample : List Row := [loaded2020, loaded2021]

def rawBad : RawRow :=
  { tahun := 2023, bulan := "Smarch", jumlah_sampah := 10,
    penanganan_estimasi := 5, sisa_sampah := 5, akumulasi := 85,
    skn_BAU := 600, skn_70 := 500, skn_80 := 400 }

def badRaw : List RawRow := [raw2020, rawBad]

theorem rangeFilter_empty_fallback_witness :
    range_filter sampleDf (some "2025") (some "2025") = (sampleDf, "", "") :=
  rangeFilter_empty_fallback sampleDf (some "2025") (some "2025") (by decide)

theorem applyBounds_exact_witness :
    (applyBounds sampleDf (some "2021") (some "2022") =
      sampleDf.filter (boundOk (parseBound (some "2021")) (parseBound (some "2022")))) ∧
    parseBound none = none ∧
    ∀ s : String, isdigit s = false → parseBound (some s) = none :=
  applyBounds_exact sampleDf (some "2021") (some "2022") (by decide)

theorem buildSummary_stats_witness :
    (∃ s lastRow, build_summary sampleDf = .ok s ∧
      sampleDf.getLast? = some lastRow ∧
      (∀ r ∈ sampleDf, r.tanggal ≤ lastRow.tanggal) ∧
      s.total_sampah_value = (sampleDf.map (fun r => r.jumlah_sampah)).sum ∧
      s.rata_penanganan_value =
        (sampleDf.map (fun r => r.penanganan_estimasi)).sum / (sampleDf.length : Rat) ∧
      s.sisa_akhir_value = lastRow.sisa_sampah ∧
      s.akumulasi_akhir_value = lastRow.akumulasi ∧
      ∃ ymin ymax, (∃ r ∈ sampleDf, r.tahun = ymin) ∧
        (∃ r ∈ sampleDf, r.tahun = ymax) ∧
        (∀ r ∈ sampleDf, ymin ≤ r.tahun ∧ r.tahun ≤ ymax) ∧
        s.periode = toString ymin ++ " - " ++ toString ymax) ∧
    ∃ s, build_summary sampleDf = .ok s ∧ s.total_sampah_value = 340 ∧
      s.periode = "2020 - 2022" :=
  ⟨buildSummary_stats sampleDf (by decide) (by decide),
   by
     refine ⟨_, rfl, ?_, ?_⟩
     · show (sampleDf.map (fun r => r.jumlah_sampah)).sum = 340
       norm_num [sampleDf, row2020, row2021, row2022]
     · decide⟩

theorem loadData_sorted_witness :
    List.Pairwise (fun a b : Row => a.tanggal < b.tanggal) loadedSample :=
  loadData_sorted (.withoutTanggal sampleRaw) loadedSample
    (by
      have h1 : mapRows sampleRaw = .ok [loaded2021, loaded2020] := rfl
      simp only [load_data, h1, mergeSort_pair]
      norm_num [tanggalLe, loaded2020, loaded2021, loadedSample])
    (by decide)

theorem buildInsights_peak_lowest_witness :
    ∃ hi lo,
      maxRowBy (fun r => r.jumlah_sampah) sampleDf = some hi ∧
      minRowBy (fun r => r.jumlah_sampah) sampleDf = some lo ∧
      hi ∈ sampleDf ∧ lo ∈ sampleDf ∧
      (∀ r ∈ sampleDf, r.jumlah_sampah ≤ hi.jumlah_sampah) ∧
      (∀ r ∈ sampleDf, lo.jumlah_sampah ≤ r.jumlah_sampah) ∧
      (∀ r ∈ sampleDf, r.jumlah_sampah = hi.jumlah_sampah → hi.tanggal ≤ r.tanggal) ∧
      (∀ r ∈ sampleDf, r.jumlah_sampah = lo.jumlah_sampah → lo.tanggal ≤ r.tanggal) ∧
      ∃ s3, build_insights sampleDf = some
        ["Puncak timbulan terjadi pada " ++ titleCase hi.bulan ++ " " ++
           toString hi.tahun ++ " sebesar " ++ fmt0 hi.jumlah_sampah ++ " ton.",
         "Periode terendah adalah " ++ titleCase lo.bulan ++ " " ++
           toString lo.tahun ++ " dengan " ++ fmt0 lo.jumlah_sampah ++ " ton.",
         s3] :=
  buildInsights_peak_lowest sampleDf (by decide) (by decide)

theorem buildInsights_delta_witness :
    (∃ lastRow s1 s2, sampleDf.getLast? = some lastRow ∧
      (∀ r ∈ sampleDf, r.tanggal ≤ lastRow.tanggal) ∧
      build_insights sampleDf = some [s1, s2,
        "Skenario 80% menurunkan akumulasi akhir sebesar " ++
          fmt0 (lastRow.skn_BAU - lastRow.skn_80) ++ " ton dibanding BAU."]) ∧
    build_insights sampleDf = some
      ["Puncak timbulan terjadi pada Februari 2021 sebesar 150 ton.",
       "Periode terendah adalah Maret 2022 dengan 90 ton.",
       "Skenario 80% menurunkan akumulasi akhir sebesar 150 ton dibanding BAU."] :=
  ⟨buildInsights_delta sampleDf (by decide) (by decide),
   by
     have h := build_insights_eq sampleDf row2021 row2022 row2022
       (by decide) (by decide) (by decide)
     have e1 : fmt0 row2021.jumlah_sampah = "150" := by
       rw [show row2021.jumlah_sampah = ((150 : Int) : Rat) by norm_num [row2021],
         fmt0_intCast 150 (by norm_num)]
       decide
     have e2 : fmt0 row2022.jumlah_sampah = "90" := by
       rw [show row2022.jumlah_sampah = ((90 : Int) : Rat) by norm_num [row2022],
         fmt0_intCast 90 (by norm_num)]
       decide
     have e3 : fmt0 (row2022.skn_BAU - row2022.skn_80) = "150" := by
       rw [show row2022.skn_BAU - row2022.skn_80 = ((150 : Int) : Rat) by
           norm_num [row2022],
         fmt0_intCast 150 (by norm_num)]
       decide
     rw [h, e1, e2, e3]
     decide⟩

theorem generateCharts_projection_witness :
    ((generate_charts sampleDf).1.x = sampleDf.map (fun r => r.tanggal)) ∧
    ((generate_charts sampleDf).2.1.x = (generate_charts sampleDf).1.x) ∧
    ((generate_charts sampleDf).2.2.1.x = (generate_charts sampleDf).1.x) ∧
    ((generate_charts sampleDf).2.2.2.1.x = (generate_charts sampleDf).1.x) ∧
    ((generate_charts sampleDf).2.2.2.2.x = (generate_charts sampleDf).1.x) ∧
    ((generate_charts sampleDf).1.x.length = sampleDf.length) ∧
    ((generate_charts sampleDf).1.y.length = sampleDf.length) ∧
    ((generate_charts sampleDf).2.1.y.length = sampleDf.length) ∧
    ((generate_charts sampleDf).2.2.1.y.length = sampleDf.length) ∧
    ((generate_charts sampleDf).2.2.2.1.y.length = sampleDf.length) ∧
    ((generate_charts sampleDf).2.2.2.2.y.length = sampleDf.length) ∧
    (sampleDf = [] → generate_charts sampleDf =
      (⟨[], []⟩, ⟨[], []⟩, ⟨[], []⟩, ⟨[], []⟩, ⟨[], []⟩)) :=
  generateCharts_projection sampleDf

theorem loadData_unknown_month_witness :
    load_data (.withoutTanggal badRaw) = .error .UnknownMonth ∧
    ∃ out, load_data (.withoutTanggal sampleRaw) = .ok out ∧
      ∀ y ∈ out, ∃ m, bulan_map.lookup (str_upper y.bulan) = some m ∧
        y.tanggal = y.tahun * 12 + (m : Int) :=
  ⟨(loadData_unknown_month badRaw).1 (by decide),
   (loadData_unknown_month sampleRaw).2 (by decide)⟩

theorem buildSummary_empty_guard_witness :
    build_summary ([] : List Row) = .error .EmptyDataset ∧
    ∃ s, build_summary sampleDf = .ok s :=
  ⟨(buildSummary_empty_guard ([] : List Row)).1.mpr rfl,
   (buildSummary_empty_guard sampleDf).2 (by decide)⟩

theorem buildInsights_length_three_witness :
    ∃ l, build_insights sampleDf = some l ∧ l.length = 3 :=
  buildInsights_length_three sampleDf (by decide)
